import Mathlib

/-!
# Shallow embedding of the LIDAR-Lite v3HP MicroPython driver

This file embeds `src/lidarLitev3hp.py` (class `V3HP`) in Lean 4 and proves
properties of the embedded driver.

Modelling choices:
* The I2C bus together with the attached device is an abstract `Device σ`:
  a device state type `σ` with a fallible register write and a fallible
  register read (failure = bus error / NACK).  Three concrete devices are
  used: `regsDevice` (a mock register file, every transaction succeeds,
  reads return the bytes stored at consecutive register addresses, writes
  store the payload bytes at consecutive register addresses — the usual
  I2C `writeto_mem`/`readfrom_mem` auto-increment semantics),
  `streamDevice` (reads answered from an arbitrary byte stream, used to
  quantify over every possible busy-flag sequence) and `failWriteDevice`
  (every write NACKs).
* Every driver operation is a function
  `Device σ → DriverState → σ → Outcome σ α` returning the result value,
  the driver's in-memory state, the device state, and the chronological
  log of the bus transactions that completed.  A Python exception
  (KeyError from the configuration-table lookup, or an I2C error) is the
  `Outcome.err` constructor, carrying the states at the point of failure
  and the log of the transactions completed before it.
* Python `bytes`/`bytearray` values are `List Nat`; indexing `b[i]` is
  `List.getD i 0` (reads from the modelled devices always return exactly
  the requested number of bytes, so the default is never consulted);
  item assignment `b[i] = v` is `List.set i v`.
* `sleep_us` and `print` have no observable effect in the model and are
  omitted.
* The `while` loop of `wait_for_busy` counts iterations in `busy_counter`
  and breaks once `busy_counter > 9999`; it is embedded structurally with
  a fuel argument `fuel = 10000 - busy_counter`, entered at `fuel = 10000`.
-/

/-- One completed bus transaction, as the device sees it: which device
address it targeted, which register, and the payload written or the bytes
returned. -/
inductive Tx where
  | wr (dev reg : Nat) (payload : List Nat)
  | rd (dev reg n : Nat) (result : List Nat)
  deriving Repr, DecidableEq, Inhabited

/-- The device address a transaction targeted. -/
def Tx.devAddr : Tx → Nat
  | .wr dev _ _ => dev
  | .rd dev _ _ _ => dev

/-- The two error kinds of the driver: `config` is the failure of the
configuration-table lookup (`KeyError` in the source, the spec's
`ConfigurationError`), `bus` is a transport failure (the spec's
`BusError`). -/
inductive Err where
  | config
  | bus
  deriving Repr, DecidableEq

/-- The driver's in-memory state: the fields the source assigns on
`self` (besides the bus handle and the static configuration table). -/
structure DriverState where
  address : Nat
  sig_count_max : Nat
  acq_config_reg : Nat
  ref_count_max : Nat
  threshold_bypass : Nat
  deriving Repr, DecidableEq

/-- The driver state right after `__init__` stored its defaults and
before `configure` runs (source lines 32–36). -/
def initState : DriverState :=
  { address := 0x62, sig_count_max := 0x80, acq_config_reg := 0x08,
    ref_count_max := 0x05, threshold_bypass := 0x00 }

/-- An abstract bus/device: `doWrite` stores a payload at a register
(`none` = bus error), `doRead` fetches `n` bytes from a register
(`none` = bus error). -/
structure Device (σ : Type) where
  doWrite : σ → Nat → List Nat → Option σ
  doRead : σ → Nat → Nat → Option (List Nat × σ)

/-- Result of running a driver operation: the value, the driver state,
the device state and the log of completed transactions; or an error with
the states and log at the point of failure. -/
inductive Outcome (σ : Type) (α : Type) where
  | ok (a : α) (d : DriverState) (s : σ) (log : List Tx)
  | err (e : Err) (d : DriverState) (s : σ) (log : List Tx)

/-- Sequencing: run the continuation on success, propagate the error
(prepending the already-completed transactions) otherwise. -/
def Outcome.bind {σ α β : Type} (o : Outcome σ α)
    (f : α → DriverState → σ → Outcome σ β) : Outcome σ β :=
  match o with
  | .ok a d s log =>
    match f a d s with
    | .ok b d' s' log' => .ok b d' s' (log ++ log')
    | .err e d' s' log' => .err e d' s' (log ++ log')
  | .err e d s log => .err e d s log

/-- The transaction log of an outcome. -/
def Outcome.log {σ α : Type} : Outcome σ α → List Tx
  | .ok _ _ _ log => log
  | .err _ _ _ log => log

/-- The driver state of an outcome (also on error: the state at failure). -/
def Outcome.driver {σ α : Type} : Outcome σ α → DriverState
  | .ok _ d _ _ => d
  | .err _ d _ _ => d

/-- The device state of an outcome (also on error: the state at failure). -/
def Outcome.device {σ α : Type} : Outcome σ α → σ
  | .ok _ _ s _ => s
  | .err _ _ s _ => s

/-- Whether the operation completed without an exception. -/
def Outcome.isOk {σ α : Type} : Outcome σ α → Bool
  | .ok _ _ _ _ => true
  | .err _ _ _ _ => false

/-- The returned value, when the operation completed. -/
def Outcome.value? {σ α : Type} : Outcome σ α → Option α
  | .ok a _ _ _ => some a
  | .err _ _ _ _ => none

/-- The error, when the operation failed. -/
def Outcome.error? {σ α : Type} : Outcome σ α → Option Err
  | .ok _ _ _ _ => none
  | .err e _ _ _ => some e

namespace V3HP

/-- One four-field configuration profile (one entry of the
`self.configurations` dict, source lines 38–81). -/
structure Config where
  sig_count_max : Nat
  acq_config_reg : Nat
  ref_count_max : Nat
  threshold_bypass : Nat
  deriving Repr, DecidableEq

/-- The `self.configurations` dict (source lines 38–81): profile id ↦
the four register values; lookup of any other key is a `KeyError`. -/
def configurations (mode : Nat) : Option Config :=
  if mode = 0 then
    some { sig_count_max := 0x80, acq_config_reg := 0x08,
           ref_count_max := 0x05, threshold_bypass := 0x00 }
  else if mode = 1 then
    some { sig_count_max := 0x1d, acq_config_reg := 0x08,
           ref_count_max := 0x03, threshold_bypass := 0x03 }
  else if mode = 2 then
    some { sig_count_max := 0x80, acq_config_reg := 0x00,
           ref_count_max := 0x03, threshold_bypass := 0x00 }
  else if mode = 3 then
    some { sig_count_max := 0xff, acq_config_reg := 0x08,
           ref_count_max := 0x05, threshold_bypass := 0x00 }
  else if mode = 4 then
    some { sig_count_max := 0x80, acq_config_reg := 0x08,
           ref_count_max := 0x05, threshold_bypass := 0x00 }
  else if mode = 5 then
    some { sig_count_max := 0x80, acq_config_reg := 0x08,
           ref_count_max := 0x05, threshold_bypass := 0xb0 }
  else if mode = 6 then
    some { sig_count_max := 0x04, acq_config_reg := 0x01,
           ref_count_max := 0x03, threshold_bypass := 0x00 }
  else none

variable {σ : Type}

/-- `V3HP.write` (source lines 174–180): `i2c.writeto_mem(self.address,
register, value)` followed by a 10 µs settle delay (no observable
effect in the model). -/
def write (dev : Device σ) (d : DriverState) (s : σ)
    (register : Nat) (value : List Nat) : Outcome σ Unit :=
  match dev.doWrite s register value with
  | some s' => .ok () d s' [.wr d.address register value]
  | none => .err .bus d s []

/-- `V3HP.read` (source lines 182–188): `i2c.readfrom_mem(self.address,
register, bytes)`. -/
def read (dev : Device σ) (d : DriverState) (s : σ)
    (register n : Nat) : Outcome σ (List Nat) :=
  match dev.doRead s register n with
  | some (val, s') => .ok val d s' [.rd d.address register n val]
  | none => .err .bus d s []

/-- `V3HP.configure` (source lines 84–108): look the profile up in the
dict (a bad id raises `KeyError` on the first lookup, before anything is
mutated), assign the four mirror fields, then write the four registers. -/
def configure (dev : Device σ) (d : DriverState) (s : σ)
    (mode : Nat) : Outcome σ Unit :=
  match configurations mode with
  | none => .err .config d s []
  | some c =>
    let d := { d with sig_count_max := c.sig_count_max,
                      acq_config_reg := c.acq_config_reg,
                      ref_count_max := c.ref_count_max,
                      threshold_bypass := c.threshold_bypass }
    (write dev d s 0x02 [d.sig_count_max]).bind fun _ d s =>
    (write dev d s 0x04 [d.acq_config_reg]).bind fun _ d s =>
    (write dev d s 0x12 [d.ref_count_max]).bind fun _ d s =>
    write dev d s 0x1c [d.threshold_bypass]

/-- `V3HP.change_i2c_address` (source lines 110–138). -/
def change_i2c_address (dev : Device σ) (d : DriverState) (s : σ)
    (address : Nat) (disable_default : Bool) : Outcome σ Unit :=
  (read dev d s 0x16 2).bind fun databytes d s =>
  (write dev d s 0x18 databytes).bind fun _ d s =>
  let databytes := databytes.set 0 (address <<< 1)
  (write dev d s 0x1a databytes).bind fun _ d s =>
  let d := { d with address := address }
  (read dev d s 0x1e 1).bind fun databytes d s =>
  let databytes := databytes.set 0 (databytes.getD 0 0 ||| 1 <<< 4)
  (write dev d s 0x1e databytes).bind fun _ d s =>
  if disable_default then
    (read dev d s 0x1e 1).bind fun databytes d s =>
    let databytes := databytes.set 0 (databytes.getD 0 0 ||| 1 <<< 3)
    write dev d s 0x1e databytes
  else .ok () d s []

/-- `V3HP.read_distance` (source lines 140–150): read two bytes from
register 0x0f and combine them big-endian. -/
def read_distance (dev : Device σ) (d : DriverState) (s : σ) :
    Outcome σ Nat :=
  (read dev d s 0x0f 2).bind fun databytes d s =>
  .ok (databytes.getD 0 0 <<< 8 ||| databytes.getD 1 0) d s []

/-- `V3HP.take_range` (source lines 152–156): write 0x01 to register
0x00 to trigger an acquisition. -/
def take_range (dev : Device σ) (d : DriverState) (s : σ) :
    Outcome σ Unit :=
  write dev d s 0x00 [0x01]

/-- `V3HP.get_busy_flag` (source lines 167–172): read one byte from
register 0x01 and mask bit 0. -/
def get_busy_flag (dev : Device σ) (d : DriverState) (s : σ) :
    Outcome σ Nat :=
  (read dev d s 0x01 1).bind fun busy_flag d s =>
  .ok (busy_flag.getD 0 0 &&& 0x01) d s []

/-- The `while` loop of `V3HP.wait_for_busy` (source lines 158–165),
with `fuel = 10000 - busy_counter`: read the busy flag; exit if clear;
otherwise `busy_counter += 1` and break once `busy_counter > 9999`
(that is, once the fuel below the incremented counter runs out).  The
`fuel = 0` case is never reached from the entry point `fuel = 10000`. -/
def wait_for_busy_go (dev : Device σ) :
    Nat → DriverState → σ → Outcome σ Unit
  | 0, d, s => .ok () d s []
  | fuel + 1, d, s =>
    (get_busy_flag dev d s).bind fun flag d s =>
    if flag == 1 then
      match fuel with
      | 0 => .ok () d s []
      | fuel' + 1 => wait_for_busy_go dev (fuel' + 1) d s
    else .ok () d s []

/-- `V3HP.wait_for_busy` (source lines 158–165): `busy_counter` starts
at 0, so the loop is entered with fuel 10000. -/
def wait_for_busy (dev : Device σ) (d : DriverState) (s : σ) :
    Outcome σ Unit :=
  wait_for_busy_go dev 10000 d s

/-- `V3HP.range` (source lines 213–221): wait, trigger, wait, read. -/
def range (dev : Device σ) (d : DriverState) (s : σ) : Outcome σ Nat :=
  (wait_for_busy dev d s).bind fun _ d s =>
  (take_range dev d s).bind fun _ d s =>
  (wait_for_busy dev d s).bind fun _ d s =>
  read_distance dev d s

/-- `V3HP.range_fast` (source lines 223–232): wait, trigger, read —
without the second wait. -/
def range_fast (dev : Device σ) (d : DriverState) (s : σ) :
    Outcome σ Nat :=
  (wait_for_busy dev d s).bind fun _ d s =>
  (take_range dev d s).bind fun _ d s =>
  read_distance dev d s

/-- `V3HP.reset_reference_filter` (source lines 190–211), kept exactly
as written: the byte with the disable-reference-filter bit set is
written to register 0x12 (as in the source), and the subsequent read of
0x12 therefore sees that just-written byte. -/
def reset_reference_filter (dev : Device σ) (d : DriverState) (s : σ) :
    Outcome σ Unit :=
  (read dev d s 0x04 1).bind fun databytes d s =>
  let acq_config_reg := databytes.getD 0 0
  let databytes := databytes.set 0 (databytes.getD 0 0 ||| 0x10)
  (write dev d s 0x12 databytes).bind fun _ d s =>
  (read dev d s 0x12 1).bind fun databytes d s =>
  let refCountMax := databytes.getD 0 0
  let databytes := databytes.set 0 0xff
  (write dev d s 0x12 databytes).bind fun _ d s =>
  (range dev d s).bind fun _ d s =>
  let databytes := databytes.set 0 refCountMax
  (write dev d s 0x12 databytes).bind fun _ d s =>
  let databytes := databytes.set 0 acq_config_reg
  write dev d s 0x04 databytes

end V3HP

/-! ## Concrete devices -/

/-- Store a payload at consecutive register addresses starting at `reg`
(I2C `writeto_mem` auto-increment semantics). -/
def storeBytes (s : Nat → Nat) (reg : Nat) (payload : List Nat) :
    Nat → Nat :=
  fun r => if reg ≤ r ∧ r < reg + payload.length
           then payload.getD (r - reg) 0 else s r

/-- Fetch `n` bytes from consecutive register addresses starting at
`reg` (I2C `readfrom_mem` auto-increment semantics). -/
def readBytes (s : Nat → Nat) (reg : Nat) : Nat → List Nat
  | 0 => []
  | n + 1 => s reg :: readBytes s (reg + 1) n

/-- The mock register-file device: state is the register map, every
transaction succeeds, reads return consecutive registers. -/
def regsDevice : Device (Nat → Nat) where
  doWrite s reg payload := some (storeBytes s reg payload)
  doRead s reg n := some (readBytes s reg n, s)

/-- A device that answers the `k`-th transaction's read with bytes
`flags k` and never fails; used to quantify over every possible
sequence of busy-flag values. -/
def streamDevice (flags : Nat → Nat) : Device Nat where
  doWrite s _ _ := some (s + 1)
  doRead s _ n := some (List.replicate n (flags s), s + 1)

/-- A device on which every write fails (NACK) and reads return
zeroes. -/
def failWriteDevice : Device Unit where
  doWrite _ _ _ := none
  doRead s _ n := some (List.replicate n 0, s)

/-- A register map with a given acquisition-config byte (register 0x04)
and reference-count byte (register 0x12), busy flag idle, and distance
bytes 0x01, 0x2C; all other registers zero. -/
def sampleRegs (acq ref : Nat) : Nat → Nat :=
  fun r => if r = 0x04 then acq else if r = 0x12 then ref
           else if r = 0x0f then 0x01 else if r = 0x10 then 0x2C else 0
/-! ## Helper lemmas: the busy-wait loop on the register-file device -/

theorem storeBytes_out {s : Nat → Nat} {reg r : Nat} {payload : List Nat}
    (h : r < reg ∨ reg + payload.length ≤ r) :
    storeBytes s reg payload r = s r := by
  unfold storeBytes
  rw [if_neg]
  omega

/-- One-step unfolding of the busy-wait loop. -/
theorem wait_for_busy_go_succ {σ : Type} (dev : Device σ) (fuel : Nat)
    (d : DriverState) (s : σ) :
    V3HP.wait_for_busy_go dev (fuel + 1) d s =
      (V3HP.get_busy_flag dev d s).bind fun flag d s =>
        if flag == 1 then
          match fuel with
          | 0 => .ok () d s []
          | fuel' + 1 => V3HP.wait_for_busy_go dev (fuel' + 1) d s
        else .ok () d s [] := by
  cases fuel <;> rfl

/-- Reading the busy flag from the register-file device. -/
theorem get_busy_flag_regs (d : DriverState) (s : Nat → Nat) :
    V3HP.get_busy_flag regsDevice d s =
      .ok (s 0x01 &&& 1) d s [.rd d.address 0x01 1 [s 0x01]] := by
  simp [V3HP.get_busy_flag, V3HP.read, regsDevice, readBytes, Outcome.bind]

/-- How many busy polls `wait_for_busy` performs on the register-file
device: one if the busy bit is clear, the 10000-iteration cap
otherwise (a register file never changes between polls). -/
def pollCount (s : Nat → Nat) : Nat :=
  if s 0x01 &&& 1 = 1 then 10000 else 1

theorem wait_for_busy_go_regs_busy (d : DriverState) (s : Nat → Nat)
    (h : s 0x01 &&& 1 = 1) (fuel : Nat) :
    V3HP.wait_for_busy_go regsDevice fuel d s =
      .ok () d s (List.replicate fuel (.rd d.address 0x01 1 [s 0x01])) := by
  induction fuel with
  | zero => rfl
  | succ n ih =>
    rw [wait_for_busy_go_succ, get_busy_flag_regs]
    cases n with
    | zero => simp [Outcome.bind, h]
    | succ m => simp [Outcome.bind, h, ih, List.replicate_succ]

theorem wait_for_busy_go_regs_idle (d : DriverState) (s : Nat → Nat)
    (h : s 0x01 &&& 1 = 0) (fuel : Nat) :
    V3HP.wait_for_busy_go regsDevice (fuel + 1) d s =
      .ok () d s [.rd d.address 0x01 1 [s 0x01]] := by
  rw [wait_for_busy_go_succ, get_busy_flag_regs]
  simp [Outcome.bind, h]

theorem wait_for_busy_regs (d : DriverState) (s : Nat → Nat) :
    V3HP.wait_for_busy regsDevice d s =
      .ok () d s (List.replicate (pollCount s) (.rd d.address 0x01 1 [s 0x01])) := by
  by_cases h : s 0x01 &&& 1 = 1
  · rw [V3HP.wait_for_busy, wait_for_busy_go_regs_busy d s h 10000, pollCount, if_pos h]
  · have h0 : s 0x01 &&& 1 = 0 := by
      have := Nat.and_one_is_mod (s 0x01)
      omega
    rw [V3HP.wait_for_busy, show (10000 : Nat) = 9999 + 1 from rfl,
        wait_for_busy_go_regs_idle d s h0 9999, pollCount, if_neg h]
    rfl
theorem take_range_regs (d : DriverState) (s : Nat → Nat) :
    V3HP.take_range regsDevice d s =
      .ok () d (storeBytes s 0x00 [0x01]) [.wr d.address 0x00 [0x01]] := by
  simp [V3HP.take_range, V3HP.write, regsDevice]

theorem read_distance_regs (d : DriverState) (s : Nat → Nat) :
    V3HP.read_distance regsDevice d s =
      .ok (s 0x0f <<< 8 ||| s 0x10) d s [.rd d.address 0x0f 2 [s 0x0f, s 0x10]] := by
  simp [V3HP.read_distance, V3HP.read, regsDevice, readBytes, Outcome.bind]

theorem storeBytes_trigger_busy (s : Nat → Nat) :
    storeBytes s 0x00 [0x01] 0x01 = s 0x01 :=
  storeBytes_out (by right; simp)

theorem storeBytes_trigger_dist0 (s : Nat → Nat) :
    storeBytes s 0x00 [0x01] 0x0f = s 0x0f :=
  storeBytes_out (by right; simp)

theorem storeBytes_trigger_dist1 (s : Nat → Nat) :
    storeBytes s 0x00 [0x01] 0x10 = s 0x10 :=
  storeBytes_out (by right; simp)

theorem pollCount_trigger (s : Nat → Nat) :
    pollCount (storeBytes s 0x00 [0x01]) = pollCount s := by
  unfold pollCount
  rw [storeBytes_trigger_busy]

/-- Full behaviour of `range` on the register-file device: poll (once if
idle, 10000 times if busy), trigger, poll again, one 2-byte distance
read, and the big-endian combination as the result. -/
theorem range_regs (d : DriverState) (s : Nat → Nat) :
    V3HP.range regsDevice d s =
      .ok (s 0x0f <<< 8 ||| s 0x10) d (storeBytes s 0x00 [0x01])
        (List.replicate (pollCount s) (.rd d.address 0x01 1 [s 0x01]) ++
         [.wr d.address 0x00 [0x01]] ++
         List.replicate (pollCount s) (.rd d.address 0x01 1 [s 0x01]) ++
         [.rd d.address 0x0f 2 [s 0x0f, s 0x10]]) := by
  rw [V3HP.range, wait_for_busy_regs]
  simp [Outcome.bind, take_range_regs, wait_for_busy_regs, read_distance_regs,
        storeBytes_trigger_busy, storeBytes_trigger_dist0, storeBytes_trigger_dist1,
        pollCount_trigger]

/-- Full behaviour of `range_fast` on the register-file device: poll,
trigger, one 2-byte distance read — no second poll. -/
theorem range_fast_regs (d : DriverState) (s : Nat → Nat) :
    V3HP.range_fast regsDevice d s =
      .ok (s 0x0f <<< 8 ||| s 0x10) d (storeBytes s 0x00 [0x01])
        (List.replicate (pollCount s) (.rd d.address 0x01 1 [s 0x01]) ++
         [.wr d.address 0x00 [0x01]] ++
         [.rd d.address 0x0f 2 [s 0x0f, s 0x10]]) := by
  rw [V3HP.range_fast, wait_for_busy_regs]
  simp [Outcome.bind, take_range_regs, read_distance_regs,
        storeBytes_trigger_dist0, storeBytes_trigger_dist1]

/-! ## Helper lemmas: configure and change_i2c_address -/

/-- Full behaviour of `configure` on the register-file device for a
recognised profile id: the four mirror fields are set and exactly the
four profile bytes are written, in order. -/
theorem configure_regs (mode : Nat) (c : V3HP.Config)
    (h : V3HP.configurations mode = some c) (d : DriverState) (s : Nat → Nat) :
    V3HP.configure regsDevice d s mode =
      .ok ()
        { d with sig_count_max := c.sig_count_max,
                 acq_config_reg := c.acq_config_reg,
                 ref_count_max := c.ref_count_max,
                 threshold_bypass := c.threshold_bypass }
        (storeBytes (storeBytes (storeBytes (storeBytes s
           0x02 [c.sig_count_max]) 0x04 [c.acq_config_reg])
           0x12 [c.ref_count_max]) 0x1c [c.threshold_bypass])
        [.wr d.address 0x02 [c.sig_count_max],
         .wr d.address 0x04 [c.acq_config_reg],
         .wr d.address 0x12 [c.ref_count_max],
         .wr d.address 0x1c [c.threshold_bypass]] := by
  rw [V3HP.configure, h]
  simp [V3HP.write, regsDevice, Outcome.bind]

/-- Full behaviour of `change_i2c_address` with `disable_default=False`
on the register-file device: five transactions, the first three at the
old driver address, the 0x1e read-modify-write at the new one. -/
theorem change_i2c_address_regs_false (d : DriverState) (s : Nat → Nat)
    (address : Nat) :
    V3HP.change_i2c_address regsDevice d s address false =
      .ok () { d with address := address }
        (storeBytes (storeBytes (storeBytes s
           0x18 [s 0x16, s 0x17]) 0x1a [address <<< 1, s 0x17])
           0x1e [s 0x1e ||| 1 <<< 4])
        [.rd d.address 0x16 2 [s 0x16, s 0x17],
         .wr d.address 0x18 [s 0x16, s 0x17],
         .wr d.address 0x1a [address <<< 1, s 0x17],
         .rd address 0x1e 1 [s 0x1e],
         .wr address 0x1e [s 0x1e ||| 1 <<< 4]] := by
  have e1 : storeBytes (storeBytes s 0x18 [s 0x16, s 0x17])
      0x1a [address <<< 1, s 0x17] 0x1e = s 0x1e := by
    rw [storeBytes_out (by right; simp), storeBytes_out (by right; simp)]
  rw [V3HP.change_i2c_address]
  simp [V3HP.read, V3HP.write, regsDevice, readBytes, Outcome.bind, e1]

/-- Full behaviour of `change_i2c_address` with `disable_default=True`
on the register-file device: seven transactions, the last four at the
new driver address. -/
theorem change_i2c_address_regs_true (d : DriverState) (s : Nat → Nat)
    (address : Nat) :
    V3HP.change_i2c_address regsDevice d s address true =
      .ok () { d with address := address }
        (storeBytes (storeBytes (storeBytes (storeBytes s
           0x18 [s 0x16, s 0x17]) 0x1a [address <<< 1, s 0x17])
           0x1e [s 0x1e ||| 1 <<< 4]) 0x1e [(s 0x1e ||| 1 <<< 4) ||| 1 <<< 3])
        [.rd d.address 0x16 2 [s 0x16, s 0x17],
         .wr d.address 0x18 [s 0x16, s 0x17],
         .wr d.address 0x1a [address <<< 1, s 0x17],
         .rd address 0x1e 1 [s 0x1e],
         .wr address 0x1e [s 0x1e ||| 1 <<< 4],
         .rd address 0x1e 1 [s 0x1e ||| 1 <<< 4],
         .wr address 0x1e [(s 0x1e ||| 1 <<< 4) ||| 1 <<< 3]] := by
  have e1 : storeBytes (storeBytes s 0x18 [s 0x16, s 0x17])
      0x1a [address <<< 1, s 0x17] 0x1e = s 0x1e := by
    rw [storeBytes_out (by right; simp), storeBytes_out (by right; simp)]
  have e2 : storeBytes (storeBytes (storeBytes s 0x18 [s 0x16, s 0x17])
      0x1a [address <<< 1, s 0x17]) 0x1e [s 0x1e ||| 16] 0x1e =
      s 0x1e ||| 16 := by
    unfold storeBytes
    simp
  rw [V3HP.change_i2c_address]
  simp [V3HP.read, V3HP.write, regsDevice, readBytes, Outcome.bind, e1, e2]

/-! ## Helper lemmas: the busy-wait loop on the stream device -/

/-- Reading the busy flag from the stream device. -/
theorem get_busy_flag_stream (flags : Nat → Nat) (d : DriverState) (s : Nat) :
    V3HP.get_busy_flag (streamDevice flags) d s =
      .ok (flags s &&& 1) d (s + 1) [.rd d.address 0x01 1 [flags s]] := by
  simp [V3HP.get_busy_flag, V3HP.read, streamDevice, Outcome.bind, List.replicate]

/-- On the stream device the busy-wait loop always returns normally,
performs at most `fuel` reads, and every transaction it performs is a
one-byte read of the status register 0x01. -/
theorem wait_for_busy_go_stream (flags : Nat → Nat) (fuel : Nat) :
    ∀ (d : DriverState) (s : Nat), ∃ s' L,
      V3HP.wait_for_busy_go (streamDevice flags) fuel d s = .ok () d s' L ∧
      L.length ≤ fuel ∧
      ∀ t ∈ L, ∃ b, t = Tx.rd d.address 0x01 1 [b] := by
  induction fuel with
  | zero => intro d s; exact ⟨s, [], rfl, by simp, by simp⟩
  | succ n ih =>
    intro d s
    rw [wait_for_busy_go_succ, get_busy_flag_stream]
    by_cases hb : flags s &&& 1 = 1
    · cases n with
      | zero =>
        exact ⟨s + 1, [Tx.rd d.address 0x01 1 [flags s]],
          by simp [Outcome.bind, hb], by simp, by simp⟩
      | succ m =>
        obtain ⟨s', L, hEq, hLen, hAll⟩ := ih d (s + 1)
        refine ⟨s', Tx.rd d.address 0x01 1 [flags s] :: L, ?_, ?_, ?_⟩
        · simp [Outcome.bind, hb, hEq]
        · simp
          omega
        · intro t ht
          rcases List.mem_cons.mp ht with h | h
          · exact ⟨flags s, h⟩
          · exact hAll t h
    · have hb2 : ¬ flags s % 2 = 1 := by rwa [Nat.and_one_is_mod] at hb
      exact ⟨s + 1, [Tx.rd d.address 0x01 1 [flags s]],
        by simp [Outcome.bind, hb, hb2], by simp, by simp⟩

/-- On a stream whose busy bit is always set, the loop performs exactly
`fuel` reads before giving up. -/
theorem wait_for_busy_go_stream_busy (flags : Nat → Nat)
    (hf : ∀ k, flags k &&& 1 = 1) (fuel : Nat) :
    ∀ (d : DriverState) (s : Nat), ∃ s' L,
      V3HP.wait_for_busy_go (streamDevice flags) fuel d s = .ok () d s' L ∧
      L.length = fuel := by
  induction fuel with
  | zero => intro d s; exact ⟨s, [], rfl, rfl⟩
  | succ n ih =>
    intro d s
    rw [wait_for_busy_go_succ, get_busy_flag_stream]
    cases n with
    | zero =>
      exact ⟨s + 1, [Tx.rd d.address 0x01 1 [flags s]],
        by simp [Outcome.bind, hf s], by simp⟩
    | succ m =>
      obtain ⟨s', L, hEq, hLen⟩ := ih d (s + 1)
      refine ⟨s', Tx.rd d.address 0x01 1 [flags s] :: L, ?_, ?_⟩
      · simp [Outcome.bind, hf s, hEq]
      · simp [hLen]

/-! ## Helper lemmas: configure on an arbitrary device -/

/-- On any device, `configure` with a recognised profile id sets all
four mirror fields (even when a write fails) and the completed writes
are an initial segment, in order, of the four intended writes. -/
theorem configure_any (dev : Device σ) (d : DriverState) (s : σ)
    (mode : Nat) (c : V3HP.Config) (h : V3HP.configurations mode = some c) :
    (V3HP.configure dev d s mode).driver =
      { d with sig_count_max := c.sig_count_max,
               acq_config_reg := c.acq_config_reg,
               ref_count_max := c.ref_count_max,
               threshold_bypass := c.threshold_bypass } ∧
    ∃ k, (V3HP.configure dev d s mode).log =
      List.take k
        [Tx.wr d.address 0x02 [c.sig_count_max],
         Tx.wr d.address 0x04 [c.acq_config_reg],
         Tx.wr d.address 0x12 [c.ref_count_max],
         Tx.wr d.address 0x1c [c.threshold_bypass]] := by
  rw [V3HP.configure, h]
  simp only [V3HP.write]
  rcases h1 : dev.doWrite s 0x02 [c.sig_count_max] with _ | s1
  · exact ⟨by simp [Outcome.bind, Outcome.driver], 0,
      by simp [Outcome.bind, Outcome.log]⟩
  · rcases h2 : dev.doWrite s1 0x04 [c.acq_config_reg] with _ | s2
    · exact ⟨by simp [Outcome.bind, Outcome.driver, h1, h2], 1,
        by simp [Outcome.bind, Outcome.log, h1, h2]⟩
    · rcases h3 : dev.doWrite s2 0x12 [c.ref_count_max] with _ | s3
      · exact ⟨by simp [Outcome.bind, Outcome.driver, h1, h2, h3], 2,
          by simp [Outcome.bind, Outcome.log, h1, h2, h3]⟩
      · rcases h4 : dev.doWrite s3 0x1c [c.threshold_bypass] with _ | s4
        · exact ⟨by simp [Outcome.bind, Outcome.driver, h1, h2, h3, h4], 3,
            by simp [Outcome.bind, Outcome.log, h1, h2, h3, h4]⟩
        · exact ⟨by simp [Outcome.bind, Outcome.driver, h1, h2, h3, h4], 4,
            by simp [Outcome.bind, Outcome.log, h1, h2, h3, h4]⟩

/-! ## The spec's profile table -/

/-- The configuration-profile table exactly as printed in the
specification (§4, "Profile table"), id ↦ (sig_count_max,
acq_config_reg, ref_count_max, threshold_bypass); stated separately
from `V3HP.configurations` so the code's table can be compared against
the spec's. -/
def specProfileTable (mode : Nat) : Option V3HP.Config :=
  if mode = 0 then
    some { sig_count_max := 0x80, acq_config_reg := 0x08,
           ref_count_max := 0x05, threshold_bypass := 0x00 }
  else if mode = 1 then
    some { sig_count_max := 0x1d, acq_config_reg := 0x08,
           ref_count_max := 0x03, threshold_bypass := 0x03 }
  else if mode = 2 then
    some { sig_count_max := 0x80, acq_config_reg := 0x00,
           ref_count_max := 0x03, threshold_bypass := 0x00 }
  else if mode = 3 then
    some { sig_count_max := 0xff, acq_config_reg := 0x08,
           ref_count_max := 0x05, threshold_bypass := 0x00 }
  else if mode = 4 then
    some { sig_count_max := 0x80, acq_config_reg := 0x08,
           ref_count_max := 0x05, threshold_bypass := 0x00 }
  else if mode = 5 then
    some { sig_count_max := 0x80, acq_config_reg := 0x08,
           ref_count_max := 0x05, threshold_bypass := 0xb0 }
  else if mode = 6 then
    some { sig_count_max := 0x04, acq_config_reg := 0x01,
           ref_count_max := 0x03, threshold_bypass := 0x00 }
  else none

/-- The spec's table and the code's table agree on every id. -/
theorem specProfileTable_eq_configurations (mode : Nat) :
    specProfileTable mode = V3HP.configurations mode := rfl

/-- Lookup of an unrecognised profile id fails. -/
theorem configurations_none (mode : Nat) (h : 7 ≤ mode) :
    V3HP.configurations mode = none := by
  unfold V3HP.configurations
  split_ifs <;> first | rfl | omega

/-! ## Claims -/

/-- C1: the claim says a successful `resetReferenceFilter()` leaves
registers 0x12 and 0x04 at their pre-call values for every initial
register state.  Running the embedded code from registers
0x04 = 0x00, 0x12 = 0x05 (busy flag idle, everything succeeds) shows
the call completes, restores register 0x04, but leaves register
0x12 = 0x10 — the pre-call 0x04 value with bit 4 set — instead of its
pre-call value 0x05: the read-back of the reference count at 0x12
happens after the modified acquisition-config byte was (per the
source's register quirk) written to 0x12, so the restore step writes
back the clobbered value. -/
theorem claim_C1_reset_reference_filter_clobbers_0x12 :
    (V3HP.reset_reference_filter regsDevice initState (sampleRegs 0x00 0x05)).isOk
      = true ∧
    (V3HP.reset_reference_filter regsDevice initState (sampleRegs 0x00 0x05)).device 0x04
      = sampleRegs 0x00 0x05 0x04 ∧
    (V3HP.reset_reference_filter regsDevice initState (sampleRegs 0x00 0x05)).device 0x12
      = 0x10 ∧
    ¬ (V3HP.reset_reference_filter regsDevice initState (sampleRegs 0x00 0x05)).device 0x12
      = sampleRegs 0x00 0x05 0x12 := by
  decide

/-- C2 counterexample: on a device whose writes all fail, `configure(1)`
fails with zero completed transactions yet the in-memory mirror field
`sig_count_max` has already been changed from its previous value 0x80
to the profile value 0x1d — so the mirror is updated before (not only
after) the corresponding write succeeds. -/
theorem claim_C2_counterexample :
    (V3HP.configure failWriteDevice initState () 1).isOk = false ∧
    (V3HP.configure failWriteDevice initState () 1).log = [] ∧
    (V3HP.configure failWriteDevice initState () 1).driver.sig_count_max = 0x1d ∧
    initState.sig_count_max = 0x80 := by
  decide

/-- C2 (amended): during `configure(profileId)` with a recognised id,
all four in-memory mirror fields are assigned the looked-up profile
values before any register write is issued — on any device, whatever
writes fail, the mirror ends up holding the full intended profile —
and the writes that do complete are an initial segment, in order, of
the four intended register writes. -/
theorem claim_C2_mirror_assigned_before_writes {σ : Type} (dev : Device σ)
    (d : DriverState) (s : σ) (mode : Nat) (c : V3HP.Config)
    (h : V3HP.configurations mode = some c) :
    (V3HP.configure dev d s mode).driver.sig_count_max = c.sig_count_max ∧
    (V3HP.configure dev d s mode).driver.acq_config_reg = c.acq_config_reg ∧
    (V3HP.configure dev d s mode).driver.ref_count_max = c.ref_count_max ∧
    (V3HP.configure dev d s mode).driver.threshold_bypass = c.threshold_bypass ∧
    ∃ k, (V3HP.configure dev d s mode).log =
      List.take k
        [Tx.wr d.address 0x02 [c.sig_count_max],
         Tx.wr d.address 0x04 [c.acq_config_reg],
         Tx.wr d.address 0x12 [c.ref_count_max],
         Tx.wr d.address 0x1c [c.threshold_bypass]] := by
  obtain ⟨hd, hk⟩ := configure_any dev d s mode c h
  rw [hd]
  exact ⟨rfl, rfl, rfl, rfl, hk⟩

/-- C2 witness: the amended claim at `configure(1)` on the
all-writes-fail device. -/
theorem claim_C2_mirror_assigned_before_writes_witness :
    (V3HP.configure failWriteDevice initState () 1).driver.sig_count_max = 0x1d ∧
    (V3HP.configure failWriteDevice initState () 1).driver.acq_config_reg = 0x08 ∧
    (V3HP.configure failWriteDevice initState () 1).driver.ref_count_max = 0x03 ∧
    (V3HP.configure failWriteDevice initState () 1).driver.threshold_bypass = 0x03 ∧
    ∃ k, (V3HP.configure failWriteDevice initState () 1).log =
      List.take k
        [Tx.wr 0x62 0x02 [0x1d], Tx.wr 0x62 0x04 [0x08],
         Tx.wr 0x62 0x12 [0x03], Tx.wr 0x62 0x1c [0x03]] :=
  claim_C2_mirror_assigned_before_writes failWriteDevice initState () 1
    ⟨0x1d, 0x08, 0x03, 0x03⟩ (by decide)

/-- C3 counterexample: `changeAddress(0x70)` on the register-file
device issues 5 transactions with `disableDefault=false` and 7 with
`true`, not the claimed 4 and 6 (the claim under-counts the 0x1e
read-modify-write rounds, each of which is a read plus a write). -/
theorem claim_C3_counterexample :
    (V3HP.change_i2c_address regsDevice initState (sampleRegs 0x08 0x05)
      0x70 false).log.length = 5 ∧
    (V3HP.change_i2c_address regsDevice initState (sampleRegs 0x08 0x05)
      0x70 true).log.length = 7 ∧
    ¬ ((V3HP.change_i2c_address regsDevice initState (sampleRegs 0x08 0x05)
         0x70 false).log.length = 4 ∧
       (V3HP.change_i2c_address regsDevice initState (sampleRegs 0x08 0x05)
         0x70 true).log.length = 6) := by
  decide

/-- C3 (amended): `changeAddress(0x70, disableDefault=false)` issues
exactly 5 bus transactions and `changeAddress(0x70, disableDefault=true)`
exactly 7; in both cases the third transaction is the write to register
0x1a and the first byte of its payload is `0x70 <<< 1 = 0xE0`. -/
theorem claim_C3_transaction_counts (d : DriverState) (s : Nat → Nat) :
    (V3HP.change_i2c_address regsDevice d s 0x70 false).log.length = 5 ∧
    (V3HP.change_i2c_address regsDevice d s 0x70 true).log.length = 7 ∧
    (V3HP.change_i2c_address regsDevice d s 0x70 false).log.getD 2 default =
      Tx.wr d.address 0x1a [0xE0, s 0x17] ∧
    (V3HP.change_i2c_address regsDevice d s 0x70 true).log.getD 2 default =
      Tx.wr d.address 0x1a [0xE0, s 0x17] := by
  rw [change_i2c_address_regs_false, change_i2c_address_regs_true]
  simp [Outcome.log, List.getD]

/-- C4 counterexample: in `changeAddress(0x70, disableDefault=false)`
the two step-4 transactions (the read and write of register 0x1e) are
issued at the new address 0x70, not at the old address 0x62 as the
claim states. -/
theorem claim_C4_counterexample :
    ((V3HP.change_i2c_address regsDevice initState (sampleRegs 0x08 0x05)
       0x70 false).log.getD 3 default).devAddr = 0x70 ∧
    ((V3HP.change_i2c_address regsDevice initState (sampleRegs 0x08 0x05)
       0x70 false).log.getD 4 default).devAddr = 0x70 ∧
    initState.address = 0x62 ∧ (0x70 : Nat) ≠ 0x62 := by
  decide

/-- C4 (amended): in `changeAddress`, the driver's in-memory address
field is updated to `newAddress` after step 3 (the write of the shifted
address to register 0x1a) and before step 4, so the step-4 transactions
on register 0x1e — and the optional step-5 ones — are issued at the new
address, while steps 1–3 are issued at the old address. -/
theorem claim_C4_address_updated_before_step4 (d : DriverState)
    (s : Nat → Nat) (a : Nat) :
    (V3HP.change_i2c_address regsDevice d s a false).driver.address = a ∧
    (V3HP.change_i2c_address regsDevice d s a false).log.map Tx.devAddr =
      [d.address, d.address, d.address, a, a] ∧
    (V3HP.change_i2c_address regsDevice d s a true).log.map Tx.devAddr =
      [d.address, d.address, d.address, a, a, a, a] := by
  rw [change_i2c_address_regs_false, change_i2c_address_regs_true]
  simp [Outcome.log, Outcome.driver, Tx.devAddr]

/-- C5: for every profile id the spec's table recognises (0–6),
`configure(id)` succeeds and issues exactly the four register writes of
the table's byte values, to registers 0x02, 0x04, 0x12, 0x1c, in that
order, and no other bus transactions. -/
theorem claim_C5_configure_writes_spec_table (mode : Nat) (c : V3HP.Config)
    (h : specProfileTable mode = some c) (d : DriverState) (s : Nat → Nat) :
    V3HP.configure regsDevice d s mode =
      .ok ()
        { d with sig_count_max := c.sig_count_max,
                 acq_config_reg := c.acq_config_reg,
                 ref_count_max := c.ref_count_max,
                 threshold_bypass := c.threshold_bypass }
        (storeBytes (storeBytes (storeBytes (storeBytes s
           0x02 [c.sig_count_max]) 0x04 [c.acq_config_reg])
           0x12 [c.ref_count_max]) 0x1c [c.threshold_bypass])
        [Tx.wr d.address 0x02 [c.sig_count_max],
         Tx.wr d.address 0x04 [c.acq_config_reg],
         Tx.wr d.address 0x12 [c.ref_count_max],
         Tx.wr d.address 0x1c [c.threshold_bypass]] := by
  rw [specProfileTable_eq_configurations] at h
  exact configure_regs mode c h d s

/-- C5 witness: profile 6 from the default driver state. -/
theorem claim_C5_configure_writes_spec_table_witness :
    V3HP.configure regsDevice initState (sampleRegs 0x08 0x05) 6 =
      .ok ()
        { address := 0x62, sig_count_max := 0x04, acq_config_reg := 0x01,
          ref_count_max := 0x03, threshold_bypass := 0x00 }
        (storeBytes (storeBytes (storeBytes (storeBytes (sampleRegs 0x08 0x05)
           0x02 [0x04]) 0x04 [0x01]) 0x12 [0x03]) 0x1c [0x00])
        [Tx.wr 0x62 0x02 [0x04], Tx.wr 0x62 0x04 [0x01],
         Tx.wr 0x62 0x12 [0x03], Tx.wr 0x62 0x1c [0x00]] :=
  claim_C5_configure_writes_spec_table 6 ⟨0x04, 0x01, 0x03, 0x00⟩ (by decide)
    initState (sampleRegs 0x08 0x05)

/-- C6: every `range()` call on the register-file device performs, in
order, a nonempty poll-until-idle phase, the trigger write of 0x01 to
register 0x00, a second nonempty poll phase, and a single 2-byte read
of the distance registers, returning `byte0 <<< 8 ||| byte1`; in
particular distance bytes [0x01, 0x2C] yield 300. -/
theorem claim_C6_range_sequence :
    (∀ (d : DriverState) (s : Nat → Nat),
      V3HP.range regsDevice d s =
        .ok (s 0x0f <<< 8 ||| s 0x10) d (storeBytes s 0x00 [0x01])
          (List.replicate (pollCount s) (.rd d.address 0x01 1 [s 0x01]) ++
           [.wr d.address 0x00 [0x01]] ++
           List.replicate (pollCount s) (.rd d.address 0x01 1 [s 0x01]) ++
           [.rd d.address 0x0f 2 [s 0x0f, s 0x10]]) ∧
      1 ≤ pollCount s) ∧
    (V3HP.range regsDevice initState (sampleRegs 0x08 0x05)).value? = some 300 :=
  ⟨fun d s => ⟨range_regs d s, by unfold pollCount; split <;> omega⟩, by decide⟩

/-- C7: `configure` with an id outside 0–6 fails with the configuration
error on any device, leaving both states untouched and issuing zero bus
transactions; for every id 0–6 the table lookup succeeds. -/
theorem claim_C7_unknown_profile_rejected_before_traffic :
    (∀ (σ : Type) (dev : Device σ) (d : DriverState) (s : σ) (mode : Nat),
      7 ≤ mode → V3HP.configure dev d s mode = .err .config d s []) ∧
    (∀ mode : Nat, mode < 7 → (V3HP.configurations mode).isSome = true) := by
  constructor
  · intro σ dev d s mode h
    simp [V3HP.configure, configurations_none mode h]
  · intro mode h
    interval_cases mode <;> decide

/-- C7 witness: `configure(7)` on the register-file device, and the
lookup of id 3. -/
theorem claim_C7_unknown_profile_rejected_before_traffic_witness :
    V3HP.configure regsDevice initState (sampleRegs 0x08 0x05) 7 =
      .err .config initState (sampleRegs 0x08 0x05) [] ∧
    (V3HP.configurations 3).isSome = true :=
  ⟨claim_C7_unknown_profile_rejected_before_traffic.1 (Nat → Nat) regsDevice
     initState (sampleRegs 0x08 0x05) 7 (by decide),
   claim_C7_unknown_profile_rejected_before_traffic.2 3 (by decide)⟩

/-- C8: for every sequence of busy-flag bytes the device may return,
`waitForIdle` returns normally (no error), performs at most 10000
transactions, each of them a busy-flag read; and when the flag never
reports idle it performs exactly 10000 reads before giving up. -/
theorem claim_C8_wait_for_busy_bounded (flags : Nat → Nat)
    (d : DriverState) (s : Nat) :
    (V3HP.wait_for_busy (streamDevice flags) d s).isOk = true ∧
    (V3HP.wait_for_busy (streamDevice flags) d s).log.length ≤ 10000 ∧
    (∀ t ∈ (V3HP.wait_for_busy (streamDevice flags) d s).log,
      ∃ b, t = Tx.rd d.address 0x01 1 [b]) ∧
    ((∀ k, flags k &&& 1 = 1) →
      (V3HP.wait_for_busy (streamDevice flags) d s).log.length = 10000) := by
  obtain ⟨s', L, hEq, hLen, hAll⟩ := wait_for_busy_go_stream flags 10000 d s
  have hw : V3HP.wait_for_busy (streamDevice flags) d s = .ok () d s' L := hEq
  rw [hw]
  refine ⟨rfl, hLen, hAll, fun hf => ?_⟩
  obtain ⟨s'', L', hEq', hLen'⟩ := wait_for_busy_go_stream_busy flags hf 10000 d s
  have h2 : Outcome.ok (σ := Nat) () d s' L = Outcome.ok () d s'' L' := by
    rw [← hEq, ← hEq']
  cases h2
  exact hLen'

/-- C8 witness: a flag stream that always reads busy. -/
theorem claim_C8_wait_for_busy_bounded_witness :
    (V3HP.wait_for_busy (streamDevice fun _ => 1) initState 0).log.length
      = 10000 :=
  (claim_C8_wait_for_busy_bounded (fun _ => 1) initState 0).2.2.2
    (fun _ => by decide)

/-- C9: when the busy flag reads idle on every poll, `range()` issues
poll, trigger, poll, distance read, and `rangeFast()` issues the same
sequence with exactly the post-trigger poll omitted; both return the
same big-endian combination of the same 2-byte distance read. -/
theorem claim_C9_range_fast_skips_one_poll (d : DriverState)
    (s : Nat → Nat) (h : s 0x01 &&& 1 = 0) :
    V3HP.range regsDevice d s =
      .ok (s 0x0f <<< 8 ||| s 0x10) d (storeBytes s 0x00 [0x01])
        [Tx.rd d.address 0x01 1 [s 0x01], Tx.wr d.address 0x00 [0x01],
         Tx.rd d.address 0x01 1 [s 0x01],
         Tx.rd d.address 0x0f 2 [s 0x0f, s 0x10]] ∧
    V3HP.range_fast regsDevice d s =
      .ok (s 0x0f <<< 8 ||| s 0x10) d (storeBytes s 0x00 [0x01])
        [Tx.rd d.address 0x01 1 [s 0x01], Tx.wr d.address 0x00 [0x01],
         Tx.rd d.address 0x0f 2 [s 0x0f, s 0x10]] := by
  have hp : pollCount s = 1 := by
    unfold pollCount
    rw [if_neg]
    omega
  rw [range_regs, range_fast_regs, hp]
  simp

/-- C9 witness: the idle register file with distance bytes
[0x01, 0x2C]. -/
theorem claim_C9_range_fast_skips_one_poll_witness :
    V3HP.range regsDevice initState (sampleRegs 0x08 0x05) =
      .ok 300 initState (storeBytes (sampleRegs 0x08 0x05) 0x00 [0x01])
        [Tx.rd 0x62 0x01 1 [0], Tx.wr 0x62 0x00 [0x01],
         Tx.rd 0x62 0x01 1 [0], Tx.rd 0x62 0x0f 2 [0x01, 0x2C]] ∧
    V3HP.range_fast regsDevice initState (sampleRegs 0x08 0x05) =
      .ok 300 initState (storeBytes (sampleRegs 0x08 0x05) 0x00 [0x01])
        [Tx.rd 0x62 0x01 1 [0], Tx.wr 0x62 0x00 [0x01],
         Tx.rd 0x62 0x0f 2 [0x01, 0x2C]] :=
  claim_C9_range_fast_skips_one_poll initState (sampleRegs 0x08 0x05) (by decide)

/-- C10: in `changeAddress`, the first transaction reads the 2-byte
unit ID from register 0x16 and the payload later written to register
0x1a is exactly 2 bytes: `newAddress <<< 1` followed by the second
unit-ID byte (the driver reuses the 2-byte unit-ID buffer, overwriting
only its first byte) — for either value of `disableDefault`. -/
theorem claim_C10_address_payload (d : DriverState) (s : Nat → Nat)
    (a : Nat) (disable : Bool) :
    (V3HP.change_i2c_address regsDevice d s a disable).log.getD 0 default =
      Tx.rd d.address 0x16 2 [s 0x16, s 0x17] ∧
    (V3HP.change_i2c_address regsDevice d s a disable).log.getD 2 default =
      Tx.wr d.address 0x1a [a <<< 1, s 0x17] := by
  cases disable
  · rw [change_i2c_address_regs_false]
    simp [Outcome.log, List.getD]
  · rw [change_i2c_address_regs_true]
    simp [Outcome.log, List.getD]
